import Mathlib

/-!
Formal model of the `bevy_proc_aud` procedural audio engine core.

Shallow embedding conventions:
* `f32` scalars are modelled as exact rationals (`ℚ`) where only comparisons,
  additions and field copies occur (parameter bridge, one-shot lifecycle,
  decoder bookkeeping), and as real numbers (`ℝ`) where transcendental DSP
  math (`exp`, `sin`, `sqrt`) occurs (preset envelopes, heartbeat phase).
* A fundsp `lfo(f)` node is modelled by evaluating `f` at the local time
  `n / sample_rate` of frame `n` (idealised per-sample evaluation of the
  time-varying control function).
* fundsp source nodes whose exact waveform no claim depends on (FM sine
  voices, band/low-passed noise) are universally quantified signal functions
  `ℝ → ℝ`; the envelope arithmetic wrapped around them is embedded exactly
  from the Rust source.
* Rust panics (slice index out of bounds) are modelled as `none`.
-/

namespace ProcAud

/-- Rust `f32::clamp(self, lo, hi)`: returns `lo` if `self < lo`, `hi` if
`self > hi`, else `self` (the non-NaN semantics, on exact values). -/
def rustClamp {α : Type} [LinearOrder α] (v lo hi : α) : α :=
  if v < lo then lo else if hi < v then hi else v

/-- `ParamHandle` from `src/dsp/param.rs`: a shared clamped scalar cell.
The `fundsp::Shared` atomic cell is modelled by the `value` field; `set`
produces the updated handle state, `get` reads it. -/
structure ParamHandle where
  name : String
  value : ℚ
  min : ℚ
  max : ℚ

/-- `ParamHandle::new(name, initial, min, max)` — stores `initial` directly
into the shared cell, without clamping (`Shared::new(initial)`). -/
def ParamHandle.new (name : String) (initial mn mx : ℚ) : ParamHandle :=
  { name := name, value := initial, min := mn, max := mx }

/-- `ParamHandle::set(value)` — clamps to `[min, max]` and stores. -/
def ParamHandle.set (h : ParamHandle) (v : ℚ) : ParamHandle :=
  { h with value := rustClamp v h.min h.max }

/-- `ParamHandle::get()` — reads the current stored value. -/
def ParamHandle.get (h : ParamHandle) : ℚ :=
  h.value

/-- A sequence of `set` calls applied in order (the only mutating operation a
`ParamHandle` exposes after construction). -/
def ParamHandle.runSets (h : ParamHandle) : List ℚ → ParamHandle
  | [] => h
  | v :: vs => (h.set v).runSets vs

/-- The filter part of the configuration accepted by `build_synth_graph`
(`src/dsp/graph_builder.rs`): exactly one of the three filter components,
with its construction-time scalar fields. -/
inductive FilterConfig
  | lowPass (cutoff_hz resonance : ℚ)
  | highPass (cutoff_hz : ℚ)
  | bandPass (center_hz bandwidth : ℚ)

/-- Result of the filter stage of `build_synth_graph`: the returned cutoff
handle, the optional resonance/bandwidth handle, and `usedCutoff`, the cutoff
the rendered filter actually uses as a function of the cutoff handle's
currently stored value.  For the low-pass and band-pass branches the code
pushes `var(&cutoff_s)` wired into the filter's cutoff input, so the rendered
cutoff is the stored value itself; for the high-pass branch the code pushes
`highpole_hz(hp.cutoff_hz)` with the construction-time constant and never
wires the handle's shared cell into the net, so the rendered cutoff is a
constant function. -/
structure FilterStage where
  cutoff : ParamHandle
  resonance : Option ParamHandle
  usedCutoff : ℚ → ℚ

/-- The filter-branch behaviour of `build_synth_graph`
(`src/dsp/graph_builder.rs` lines 56–91), embedded per branch. -/
def buildFilterStage : FilterConfig → FilterStage
  | .lowPass c r =>
      { cutoff := ParamHandle.new "filter_cutoff" c 20 20000
        resonance := some (ParamHandle.new "filter_resonance" r (1/10) 10)
        usedCutoff := fun v => v }
  | .highPass c =>
      { cutoff := ParamHandle.new "filter_cutoff" c 20 20000
        resonance := none
        usedCutoff := fun _ => c }
  | .bandPass c b =>
      { cutoff := ParamHandle.new "filter_cutoff" c 20 20000
        resonance := some (ParamHandle.new "filter_resonance" b 10 5000)
        usedCutoff := fun v => v }

/-- The component kinds the build systems in `src/systems/build.rs` insert on
a triggering entity. -/
inductive InsertedComponent
  | audioPlayer
  | synthParams
  | heartbeatParams
  | earRingingParams
  | oneShotLifetime
deriving DecidableEq

/-- Components inserted by `sword_slash_build_system`
(`src/systems/build.rs` lines 74–88): only the `AudioPlayer`. -/
def swordSlashBuildInserted : List InsertedComponent :=
  [.audioPlayer]

/-- Components inserted by `blunt_impact_build_system`
(`src/systems/build.rs` lines 91–105): only the `AudioPlayer`. -/
def bluntImpactBuildInserted : List InsertedComponent :=
  [.audioPlayer]

/-- `OneShotLifetime` from `src/components/lifetime.rs`. -/
structure OneShotLifetime where
  duration : ℚ
  elapsed : ℚ

/-- `OneShotLifetime::new(duration)` — elapsed starts at `0.0`. -/
def OneShotLifetime.new (duration : ℚ) : OneShotLifetime :=
  { duration := duration, elapsed := 0 }

/-- `oneshot_lifetime_system` (`src/systems/lifecycle.rs` lines 28–40) run
over a list of per-tick frame deltas: each tick adds the delta to `elapsed`
and despawns the entity once `elapsed ≥ duration`.  Returns the index of the
tick at which the despawn command is issued, or `none` if the entity is still
alive after all ticks. -/
def runOneShot : OneShotLifetime → List ℚ → Option ℕ
  | _, [] => none
  | l, dt :: rest =>
      let e := l.elapsed + dt
      if l.duration ≤ e then some 0
      else (runOneShot { duration := l.duration, elapsed := e } rest).map (fun i => i + 1)

/-- `fundsp::MAX_BUFFER_SIZE`: the fixed block size used by `fill_block`. -/
def MAX_BUFFER_SIZE : ℕ := 64

/-- `ProceduralAudio` from `src/dsp/source.rs`: the asset wraps the canonical
constructed graph.  The graph is modelled as a deterministic state machine:
`step` renders one stereo frame and advances the internal state (oscillator
phases, filter history, noise position — all of which fundsp advances
deterministically and clones by value).  Sample values are modelled in `ℚ`;
the claims about the decoder depend only on control flow, not on sample
arithmetic. -/
structure ProceduralAudio (S : Type) where
  step : S → (ℚ × ℚ) × S
  state : S
  sample_rate : ℕ
  channels : ℕ

/-- `ProceduralAudioDecoder` from `src/dsp/source.rs`: owns an exclusive
clone of the graph plus the interleaved sample buffer and its cursor. -/
structure Decoder (S : Type) where
  step : S → (ℚ × ℚ) × S
  state : S
  sample_rate : ℕ
  channels : ℕ
  buffer : List ℚ
  pos : ℕ
  total : ℕ

/-- `graph.process(size, ...)`: render `n` stereo frames, threading the graph
state. -/
def renderBlock {S : Type} (step : S → (ℚ × ℚ) × S) : ℕ → S → List (ℚ × ℚ) × S
  | 0, s => ([], s)
  | n + 1, s =>
      let fs := step s
      let rest := renderBlock step n fs.2
      (fs.1 :: rest.1, rest.2)

/-- The interleaving loop of `fill_block`: for each frame, slot `base` gets
channel 0, slot `base + 1` gets channel 1 when `ch ≥ 2`, and the remaining
slots of the chunk keep the `0.0` written by `resize`. -/
def interleave (ch : ℕ) : List (ℚ × ℚ) → List ℚ
  | [] => []
  | f :: fs =>
      (f.1 :: ((if 2 ≤ ch then [f.2] else []) ++ List.replicate (ch - 2) 0))
        ++ interleave ch fs

/-- `ProceduralAudioDecoder::fill_block` (`src/dsp/source.rs` lines 45–67):
renders one `MAX_BUFFER_SIZE` block, interleaves it into the flat buffer,
resets `pos` to 0, and sets `total` to the buffer length. -/
def Decoder.fillBlock {S : Type} (d : Decoder S) : Decoder S :=
  { d with
    state := (renderBlock d.step MAX_BUFFER_SIZE d.state).2
    buffer := interleave d.channels (renderBlock d.step MAX_BUFFER_SIZE d.state).1
    pos := 0
    total := MAX_BUFFER_SIZE * d.channels }

/-- The refill guard at the top of `next`: `if self.pos >= self.total`
then `fill_block`. -/
def Decoder.refill {S : Type} (d : Decoder S) : Decoder S :=
  if d.total ≤ d.pos then d.fillBlock else d

/-- `ProceduralAudioDecoder::next` (`src/dsp/source.rs` lines 69–81):
refill when exhausted, read `buffer[pos]` (an out-of-bounds read — a Rust
panic — is modelled as `none`), advance `pos`. -/
def Decoder.next {S : Type} (d : Decoder S) : Option ℚ × Decoder S :=
  (d.refill.buffer.get? d.refill.pos, { d.refill with pos := d.refill.pos + 1 })

/-- Pull `n` successive samples from the decoder. -/
def Decoder.run {S : Type} : Decoder S → ℕ → List (Option ℚ) × Decoder S
  | d, 0 => ([], d)
  | d, n + 1 =>
      let r := d.next
      let rest := Decoder.run r.2 n
      (r.1 :: rest.1, rest.2)

/-- `ProceduralAudio::decoder` (`src/dsp/source.rs` lines 101–121): lock the
canonical graph once, clone it (the canonical graph is never rendered, so the
clone starts at local time zero), and hand it to a fresh decoder whose cursor
starts exhausted (`pos = MAX_BUFFER_SIZE * ch`) to force a fill on the first
call. -/
def ProceduralAudio.decoder {S : Type} (a : ProceduralAudio S) : Decoder S :=
  { step := a.step
    state := a.state
    sample_rate := a.sample_rate
    channels := a.channels
    buffer := List.replicate (MAX_BUFFER_SIZE * a.channels) 0
    pos := MAX_BUFFER_SIZE * a.channels
    total := MAX_BUFFER_SIZE * a.channels }

/-- A concrete asset (silent graph, stereo, 44100 Hz) used to instantiate the
decoder theorems on concrete inputs. -/
def demoAsset : ProceduralAudio Unit :=
  { step := fun s => ((0, 0), s)
    state := ()
    sample_rate := 44100
    channels := 2 }

noncomputable section

/-! Real-valued DSP models.  Each envelope definition transcribes one `lfo`
closure from the preset sources; argument order and operation order follow
the Rust expression exactly. -/

/-- Rust `f32::trunc`: rounds toward zero. -/
def rustTrunc (x : ℝ) : ℤ :=
  if 0 ≤ x then ⌊x⌋ else ⌈x⌉

/-- Rust `f32::fract`: `self - self.trunc()`.  On negative inputs this is
negative — it does not wrap into `[0, 1)`. -/
def rustFract (x : ℝ) : ℝ :=
  x - rustTrunc x

/-- The dry/wet branch shared by every one-shot preset builder
(`build_sword_slash_graph` lines 111–119, `build_explosion_graph` lines
136–144, and likewise blunt impact, lightning zap/strike, arcane attack):
when `reverb_mix > 0.001` the output of each channel is
`dry * (1 - mix) + wet * mix`, otherwise the graph is returned dry,
with no reverb path at all.  `dry` and `wet` are the per-channel sample
streams of the pre-split graph and of its reverb-processed copy. -/
def presetMix (reverb_mix : ℚ) (dry wet : ℕ → ℚ) (n : ℕ) : ℚ :=
  if reverb_mix > 0.001 then dry n * (1 - reverb_mix) + wet n * reverb_mix
  else dry n

/-! ### Sword slash (`src/presets/sword_slash.rs`) -/

/-- FM voice 1 envelope (carrier 720 Hz layer): zero for `t > 1.2`. -/
def swordEnvV1 (int t : ℝ) : ℝ :=
  if t > 1.2 then 0 else min (t * 500) 1 * Real.exp (-t * 6) * 0.02 * int

/-- FM voice 2 envelope (carrier 2100 Hz layer): zero for `t > 0.6`. -/
def swordEnvV2 (int t : ℝ) : ℝ :=
  if t > 0.6 then 0 else min (t * 500) 1 * Real.exp (-t * 10) * 0.015 * int

/-- FM voice 3 envelope (carrier 4200 Hz layer): zero for `t > 0.3`. -/
def swordEnvV3 (int t : ℝ) : ℝ :=
  if t > 0.3 then 0 else min (t * 500) 1 * Real.exp (-t * 15) * 0.008 * int

/-- Noise layer envelope: zero for `t > 0.5`. -/
def swordNoiseEnv (int t : ℝ) : ℝ :=
  if t > 0.5 then 0 else min (t * 1000) 1 * Real.exp (-t * 10) * 0.07 * int

/-- The summed layer mix `v1 + v2 + v3 + noise_layer` of
`build_sword_slash_graph`, with the FM voices and the filtered-noise source
as arbitrary signal functions (each layer is `source * envelope`). -/
def swordSlashMix (int : ℝ) (fm1 fm2 fm3 ns : ℝ → ℝ) (t : ℝ) : ℝ :=
  fm1 t * swordEnvV1 int t + fm2 t * swordEnvV2 int t + fm3 t * swordEnvV3 int t
    + ns t * swordNoiseEnv int t

/-- Sample `n` of the sword slash graph rendered at 44100 Hz (dry path,
`reverb_mix = 0.0` takes the `else` branch of the builder). -/
def swordSlashSample (int : ℝ) (fm1 fm2 fm3 ns : ℝ → ℝ) (n : ℕ) : ℝ :=
  swordSlashMix int fm1 fm2 fm3 ns ((n : ℝ) / 44100)

/-- The stereo frame at sample `n`: `split::<U2>()` duplicates the mono mix
onto both channels. -/
def swordSlashStereoSample (int : ℝ) (fm1 fm2 fm3 ns : ℝ → ℝ) (n : ℕ) : ℝ × ℝ :=
  (swordSlashSample int fm1 fm2 fm3 ns n, swordSlashSample int fm1 fm2 fm3 ns n)

/-! ### Lightning zap (`src/presets/lightning.rs` lines 32–103) -/

/-- Core zap envelope: chaotic stutter (half-wave-rectified product of three
sines at inharmonic rates) times an exponential decay; zero for `t > 0.55`. -/
def zapEnv1 (int t : ℝ) : ℝ :=
  if t > 0.55 then 0 else
    max (Real.sin (t * 127.3 * (2 * Real.pi)) * Real.sin (t * 89.7 * (2 * Real.pi))
          * Real.sin (t * 211.1 * (2 * Real.pi))) 0
      * Real.exp (-t * 3.5) * 0.65 * int

/-- High sizzle envelope: zero for `t > 0.5`. -/
def zapEnv2 (int t : ℝ) : ℝ :=
  if t > 0.5 then 0 else
    max (Real.sin (t * 173.9 * (2 * Real.pi)) * Real.sin (t * 67.3 * (2 * Real.pi))) 0
      * Real.exp (-t * 4) * 0.4 * int

/-- Mid crackle envelope: zero for `t > 0.5`. -/
def zapEnv3 (int t : ℝ) : ℝ :=
  if t > 0.5 then 0 else
    max (Real.sin (t * 151.7 * (2 * Real.pi)) * Real.sin (t * 103.3 * (2 * Real.pi))
          * Real.sin (t * 197.9 * (2 * Real.pi))) 0
      * Real.exp (-t * 3) * 0.35 * int

/-- Summed layer mix of `build_lightning_zap_graph` (bandpassed noise sources
abstracted). -/
def zapMix (int : ℝ) (g1 g2 g3 : ℝ → ℝ) (t : ℝ) : ℝ :=
  g1 t * zapEnv1 int t + g2 t * zapEnv2 int t + g3 t * zapEnv3 int t

/-! ### Lightning strike (`src/presets/lightning.rs` lines 132–209) -/

/-- Initial crack envelope: zero for `t > 0.15`. -/
def strikeCrackEnv (int t : ℝ) : ℝ :=
  if t > 0.15 then 0 else min (t * 5000) 1 * Real.exp (-t * 20) * 0.5 * int

/-- Low boom envelope: zero for `t > 2.5`. -/
def strikeBoomEnv (int t : ℝ) : ℝ :=
  if t > 2.5 then 0 else min (t * 100) 1 * Real.exp (-t * 1.2) * 0.7 * int

/-- Mid body envelope: zero for `t > 1.5`. -/
def strikeMidEnv (int t : ℝ) : ℝ :=
  if t > 1.5 then 0 else min (t * 200) 1 * Real.exp (-t * 2) * 0.3 * int

/-- Electrical crackle envelope: zero for `t > 0.8`. -/
def strikeCrackleEnv (int t : ℝ) : ℝ :=
  if t > 0.8 then 0 else min (t * 1000) 1 * Real.exp (-t * 4) * 0.06 * int

/-- Summed layer mix of `build_lightning_strike_graph`. -/
def strikeMix (int : ℝ) (g1 g2 g3 g4 : ℝ → ℝ) (t : ℝ) : ℝ :=
  g1 t * strikeCrackEnv int t + g2 t * strikeBoomEnv int t
    + g3 t * strikeMidEnv int t + g4 t * strikeCrackleEnv int t

/-! ### Blunt impact (`src/presets/blunt_impact.rs`) -/

/-- Impact crack envelope: zero for `t > 0.1`. -/
def bluntCrackEnv (int t : ℝ) : ℝ :=
  if t > 0.1 then 0 else min (t * 500) 1 * Real.exp (-t * 35) * 0.5 * int

/-- Body thud envelope: zero for `t > 0.15`. -/
def bluntThudEnv (int t : ℝ) : ℝ :=
  if t > 0.15 then 0 else min (t * 200) 1 * Real.exp (-t * 20) * 0.35 * int

/-- Weapon clang envelope: zero for `t > 0.2`. -/
def bluntClangEnv (int t : ℝ) : ℝ :=
  if t > 0.2 then 0 else min (t * 500) 1 * Real.exp (-t * 18) * 0.08 * int

/-- Summed layer mix of `build_blunt_impact_graph` (the `U3` mix map node). -/
def bluntMix (int : ℝ) (g1 g2 g3 : ℝ → ℝ) (t : ℝ) : ℝ :=
  g1 t * bluntCrackEnv int t + g2 t * bluntThudEnv int t + g3 t * bluntClangEnv int t

/-! ### Explosion (`src/presets/explosion.rs`); `decay_scale = pitch.sqrt()` -/

/-- Initial blast envelope: zero for `t > 0.2 / decay_scale`. -/
def expBlastEnv (int pitch t : ℝ) : ℝ :=
  if t > 0.2 / Real.sqrt pitch then 0 else
    min (t * 5000) 1 * Real.exp (-t * 18 * Real.sqrt pitch) * 0.2 * int

/-- Tonal boom envelope: zero for `t > 2.5 / decay_scale`. -/
def expBoomEnv (int pitch t : ℝ) : ℝ :=
  if t > 2.5 / Real.sqrt pitch then 0 else
    min (t * 60) 1 * Real.exp (-t * 1.5 * Real.sqrt pitch) * 0.12 * int

/-- Sub rumble envelope: zero for `t > 3.0 / decay_scale`. -/
def expRumbleEnv (int pitch t : ℝ) : ℝ :=
  if t > 3.0 / Real.sqrt pitch then 0 else
    min (t * 80) 1 * Real.exp (-t * 1 * Real.sqrt pitch) * 0.6 * int

/-- Mid body envelope: zero for `t > 1.5 / decay_scale`. -/
def expMidEnv (int pitch t : ℝ) : ℝ :=
  if t > 1.5 / Real.sqrt pitch then 0 else
    min (t * 150) 1 * Real.exp (-t * 2.5 * Real.sqrt pitch) * 0.4 * int

/-- Fireball whoosh envelope: zero for `t > 1.5 / decay_scale`. -/
def expWhooshEnv (int pitch t : ℝ) : ℝ :=
  if t > 1.5 / Real.sqrt pitch then 0 else
    rustClamp ((t - 0.02) * 60) 0 1 * Real.exp (-t * 2 * Real.sqrt pitch) * 0.35 * int

/-- Crackle tail envelope: zero for `t > 1.8 / decay_scale`. -/
def expCrackleEnv (int pitch t : ℝ) : ℝ :=
  if t > 1.8 / Real.sqrt pitch then 0 else
    rustClamp ((t - 0.05) * 20) 0 1
      * max (Real.sin (t * 97.3 * (2 * Real.pi)) * Real.sin (t * 143.7 * (2 * Real.pi))) 0
      * Real.exp (-t * 2 * Real.sqrt pitch) * 0.04 * int

/-- Summed layer mix of `build_explosion_graph`, before the two output
low-pass stages and the stereo split. -/
def expLayerMix (int pitch : ℝ) (g1 g2 g3 g4 g5 g6 : ℝ → ℝ) (t : ℝ) : ℝ :=
  g1 t * expBlastEnv int pitch t + g2 t * expBoomEnv int pitch t
    + g3 t * expRumbleEnv int pitch t + g4 t * expMidEnv int pitch t
    + g5 t * expWhooshEnv int pitch t + g6 t * expCrackleEnv int pitch t

/-! ### Arcane attack (`src/presets/arcane_attack.rs`) -/

/-- Shimmer core envelope: zero for `t > 0.55`. -/
def arcShimmerEnv (int t : ℝ) : ℝ :=
  if t > 0.55 then 0 else min (t * 40) 1 * Real.exp (-t * 5.5) * 0.15 * int

/-- Crystalline sparkle envelope (granular stutter): zero for `t > 0.6`. -/
def arcSparkleEnv (int t : ℝ) : ℝ :=
  if t > 0.6 then 0 else
    min (t * 80) 1 * Real.exp (-t * 4.5)
      * max (Real.sin (t * 73 * (2 * Real.pi)) * Real.sin (t * 113 * (2 * Real.pi))) 0
      * 0.25 * int

/-- Rising sweep envelope: zero for `t > 0.45`. -/
def arcSweepEnv (int t : ℝ) : ℝ :=
  if t > 0.45 then 0 else
    Real.exp (-(max (t - 0.35) 0) * 20) * min (t * 30) 1 * 0.12 * int

/-- Ethereal wash envelope: zero for `t > 0.6`. -/
def arcWashEnv (int t : ℝ) : ℝ :=
  if t > 0.6 then 0 else min (t * 20) 1 * Real.exp (-t * 3.5) * 0.30 * int

/-- Harmonic cluster envelope: zero for `t > 0.4`. -/
def arcClusterEnv (int t : ℝ) : ℝ :=
  if t > 0.4 then 0 else min (t * 120) 1 * Real.exp (-t * 8) * 0.08 * int

/-- Summed layer mix of `build_arcane_attack_graph`, before the two output
low-pass stages and the stereo split. -/
def arcLayerMix (int : ℝ) (g1 g2 g3 g4 g5 : ℝ → ℝ) (t : ℝ) : ℝ :=
  g1 t * arcShimmerEnv int t + g2 t * arcSparkleEnv int t + g3 t * arcSweepEnv int t
    + g4 t * arcWashEnv int t + g5 t * arcClusterEnv int t

/-! ### Heartbeat (`src/presets/heartbeat.rs`) -/

/-- `heart_sound(local_t, freq_lo, freq_hi, decay)`: a damped two-harmonic
burst with a 2 ms linear attack ramp; zero for negative local time. -/
def heart_sound (local_t freq_lo freq_hi decay : ℝ) : ℝ :=
  if local_t < 0 then 0
  else
    (Real.sin (2 * Real.pi * freq_lo * local_t)
        + Real.sin (2 * Real.pi * freq_hi * local_t) * 0.4)
      * (min (local_t * 500) 1 * Real.exp (-decay * local_t))

/-- The arrhythmia phase jitter of `build_heartbeat_graph` (lines 73–78):
`arr * 0.4 * (sin(2π·0.37·t)·0.5 + sin(2π·0.83·t)·0.3 + sin(2π·1.71·t)·0.2)`. -/
def hbJitter (arr t : ℝ) : ℝ :=
  arr * 0.4 * (Real.sin (2 * Real.pi * 0.37 * t) * 0.5
    + Real.sin (2 * Real.pi * 0.83 * t) * 0.3
    + Real.sin (2 * Real.pi * 1.71 * t) * 0.2)

/-- `beat_period = 60.0 / rate.max(30.0)`. -/
def hbBeatPeriod (bpm : ℝ) : ℝ :=
  60 / max bpm 30

/-- The beat phase: `(t / beat_period + phase_jitter).fract()` with Rust
`fract` semantics. -/
def hbPhase (bpm arr t : ℝ) : ℝ :=
  rustFract (t / hbBeatPeriod bpm + hbJitter arr t)

/-- One sample of the heartbeat `lfo` closure (lines 65–89, before the
`lowpole_hz(150)` stage and the stereo split): S1 at phase 0.0, S2 at phase
0.33 scaled by 0.7, summed and scaled by the intensity parameter. -/
def hbSample (bpm arr intensity t : ℝ) : ℝ :=
  (heart_sound (hbPhase bpm arr t * hbBeatPeriod bpm) 45 90 25
      + heart_sound ((hbPhase bpm arr t - 0.33) * hbBeatPeriod bpm) 65 130 35 * 0.7)
    * intensity

end

/-! ### Helper lemmas -/

/-- `rustClamp` lands in `[lo, hi]` whenever `lo ≤ hi`. -/
lemma rustClamp_mem {α : Type} [LinearOrder α] {v lo hi : α} (h : lo ≤ hi) :
    lo ≤ rustClamp v lo hi ∧ rustClamp v lo hi ≤ hi := by
  unfold rustClamp
  split_ifs with h1 h2
  · exact ⟨le_rfl, h⟩
  · exact ⟨h, le_rfl⟩
  · exact ⟨le_of_not_lt h1, le_of_not_lt h2⟩

/-- After at least one `set`, the stored value is in the handle's range. -/
lemma runSets_get_mem : ∀ (vs : List ℚ) (h : ParamHandle) (v : ℚ),
    h.min ≤ h.max →
      h.min ≤ (h.runSets (v :: vs)).get ∧ (h.runSets (v :: vs)).get ≤ h.max
  | [], h, v, hmm => by
      simpa [ParamHandle.runSets, ParamHandle.set, ParamHandle.get] using
        rustClamp_mem (v := v) hmm
  | w :: ws, h, v, hmm => by
      simpa [ParamHandle.runSets] using runSets_get_mem ws (h.set v) w hmm

/-- Despawn happens at the first tick whose accumulated delta reaches the
duration, and at no earlier tick. -/
lemma runOneShot_spec : ∀ (dts : List ℚ) (l : OneShotLifetime) (i : ℕ),
    runOneShot l dts = some i →
      l.duration ≤ l.elapsed + (dts.take (i + 1)).sum ∧
      ∀ j < i, l.elapsed + (dts.take (j + 1)).sum < l.duration
  | [], _, i => by intro h; simp [runOneShot] at h
  | dt :: rest, l, i => by
      intro h
      simp only [runOneShot] at h
      by_cases hd : l.duration ≤ l.elapsed + dt
      · rw [if_pos hd] at h
        obtain rfl : i = 0 := by simpa using (Option.some_inj.mp h).symm
        refine ⟨by simpa using hd, ?_⟩
        intro j hj
        exact absurd hj (Nat.not_lt_zero j)
      · rw [if_neg hd] at h
        obtain ⟨i0, hrec, hi⟩ := Option.map_eq_some'.mp h
        subst hi
        have ih := runOneShot_spec rest { duration := l.duration, elapsed := l.elapsed + dt } i0 hrec
        constructor
        · have h1 := ih.1
          simp only [List.take, List.sum_cons] at h1 ⊢
          linarith
        · intro j hj
          cases j with
          | zero =>
              simpa using lt_of_not_le hd
          | succ j0 =>
              have h2 := ih.2 j0 (by omega)
              simp only [List.take, List.sum_cons] at h2 ⊢
              linarith

/-- All four sword slash layer envelopes vanish strictly beyond `t = 1.2`. -/
lemma swordSlashMix_silent (int : ℝ) (f1 f2 f3 f4 : ℝ → ℝ) {t : ℝ} (h : 1.2 < t) :
    swordSlashMix int f1 f2 f3 f4 t = 0 := by
  unfold swordSlashMix swordEnvV1 swordEnvV2 swordEnvV3 swordNoiseEnv
  rw [if_pos h, if_pos (lt_trans (by norm_num : (0.6:ℝ) < 1.2) h),
    if_pos (lt_trans (by norm_num : (0.3:ℝ) < 1.2) h),
    if_pos (lt_trans (by norm_num : (0.5:ℝ) < 1.2) h)]
  ring

/-- All three lightning zap layer envelopes vanish strictly beyond
`t = 0.55`. -/
lemma zapMix_silent (int : ℝ) (g1 g2 g3 : ℝ → ℝ) {t : ℝ} (h : 0.55 < t) :
    zapMix int g1 g2 g3 t = 0 := by
  unfold zapMix zapEnv1 zapEnv2 zapEnv3
  rw [if_pos h, if_pos (lt_trans (by norm_num : (0.5:ℝ) < 0.55) h),
    if_pos (lt_trans (by norm_num : (0.5:ℝ) < 0.55) h)]
  ring

/-- All four lightning strike layer envelopes vanish strictly beyond
`t = 2.5`. -/
lemma strikeMix_silent (int : ℝ) (g1 g2 g3 g4 : ℝ → ℝ) {t : ℝ} (h : 2.5 < t) :
    strikeMix int g1 g2 g3 g4 t = 0 := by
  unfold strikeMix strikeCrackEnv strikeBoomEnv strikeMidEnv strikeCrackleEnv
  rw [if_pos (lt_trans (by norm_num : (0.15:ℝ) < 2.5) h), if_pos h,
    if_pos (lt_trans (by norm_num : (1.5:ℝ) < 2.5) h),
    if_pos (lt_trans (by norm_num : (0.8:ℝ) < 2.5) h)]
  ring

/-- All three blunt impact layer envelopes vanish strictly beyond
`t = 0.2`. -/
lemma bluntMix_silent (int : ℝ) (g1 g2 g3 : ℝ → ℝ) {t : ℝ} (h : 0.2 < t) :
    bluntMix int g1 g2 g3 t = 0 := by
  unfold bluntMix bluntCrackEnv bluntThudEnv bluntClangEnv
  rw [if_pos (lt_trans (by norm_num : (0.1:ℝ) < 0.2) h),
    if_pos (lt_trans (by norm_num : (0.15:ℝ) < 0.2) h), if_pos h]
  ring

/-- All six explosion layer envelopes vanish strictly beyond
`t = 3.0 / decay_scale` (for positive pitch). -/
lemma expLayerMix_silent (int : ℝ) {pitch : ℝ} (g1 g2 g3 g4 g5 g6 : ℝ → ℝ)
    {t : ℝ} (hp : 0 < pitch) (h : 3.0 / Real.sqrt pitch < t) :
    expLayerMix int pitch g1 g2 g3 g4 g5 g6 t = 0 := by
  have hsq : (0:ℝ) < Real.sqrt pitch := Real.sqrt_pos.mpr hp
  have key : ∀ c : ℝ, c ≤ 3.0 → c / Real.sqrt pitch < t := by
    intro c hc
    refine lt_of_le_of_lt ?_ h
    gcongr
  unfold expLayerMix expBlastEnv expBoomEnv expRumbleEnv expMidEnv expWhooshEnv
    expCrackleEnv
  rw [if_pos (key 0.2 (by norm_num)), if_pos (key 2.5 (by norm_num)),
    if_pos (key 3.0 (by norm_num)), if_pos (key 1.5 (by norm_num)),
    if_pos (key 1.5 (by norm_num)), if_pos (key 1.8 (by norm_num))]
  ring

/-- All five arcane attack layer envelopes vanish strictly beyond
`t = 0.6`. -/
lemma arcLayerMix_silent (int : ℝ) (g1 g2 g3 g4 g5 : ℝ → ℝ) {t : ℝ}
    (h : 0.6 < t) :
    arcLayerMix int g1 g2 g3 g4 g5 t = 0 := by
  unfold arcLayerMix arcShimmerEnv arcSparkleEnv arcSweepEnv arcWashEnv arcClusterEnv
  rw [if_pos (lt_trans (by norm_num : (0.55:ℝ) < 0.6) h), if_pos h,
    if_pos (lt_trans (by norm_num : (0.45:ℝ) < 0.6) h), if_pos h,
    if_pos (lt_trans (by norm_num : (0.4:ℝ) < 0.6) h)]
  ring

/-! ### Claim theorems -/

/-- C1: for every `ParamHandle` and every value `v`, `set(v)` stores
`clamp(v, min, max)` and `get()` reads back exactly that stored value. -/
theorem param_set_get_clamps (h : ParamHandle) (v : ℚ) :
    (h.set v).value = rustClamp v h.min h.max ∧
    (h.set v).get = (h.set v).value ∧
    (h.set v).get = rustClamp v h.min h.max :=
  ⟨rfl, rfl, rfl⟩

/-- C2 counterexample: a heartbeat-style handle constructed with
`ParamHandle::new("heart_rate", 300.0, 30.0, 220.0)` (an arbitrary component
field as the initial value) observes `get() = 300`, outside `[30, 220]`,
before any `set` call — `new` stores the initial value unclamped. -/
theorem param_new_out_of_range :
    (ParamHandle.new "heart_rate" 300 30 220).get = 300 ∧
    ¬ (ParamHandle.new "heart_rate" 300 30 220).get ≤ 220 := by
  refine ⟨rfl, ?_⟩
  norm_num [ParamHandle.new, ParamHandle.get]

/-- C2 (amended): immediately after construction `get()` returns the raw
initial value, which may lie outside `[min, max]`; after any nonempty
sequence of `set` operations the value observable via `get()` lies in
`[min, max]` whenever `min ≤ max`. -/
theorem param_value_in_range_after_set (nm : String) (initial mn mx : ℚ)
    (hmm : mn ≤ mx) :
    (ParamHandle.new nm initial mn mx).get = initial ∧
    ∀ ops : List ℚ, ops ≠ [] →
      mn ≤ ((ParamHandle.new nm initial mn mx).runSets ops).get ∧
      ((ParamHandle.new nm initial mn mx).runSets ops).get ≤ mx := by
  refine ⟨rfl, ?_⟩
  rintro (_ | ⟨v, vs⟩) hne
  · exact absurd rfl hne
  · exact runSets_get_mem vs (ParamHandle.new nm initial mn mx) v hmm

/-- Witness for the amended C2 theorem at a concrete input. -/
theorem param_value_in_range_after_set_witness :
    ((ParamHandle.new "heart_rate" 300 30 220).runSets [500]).get ≤ 220 :=
  ((param_value_in_range_after_set "heart_rate" 300 30 220 (by norm_num)).2
    [500] (by simp)).2

/-- C4 counterexample: at `reverb_mix = 0.0005` (an intermediate value in
`[0, 1]`) the built graph takes the dry branch, so with dry signal `0` and
wet signal `1` the output sample is `0`, not the claimed linear interpolation
`0 * (1 - 0.0005) + 1 * 0.0005 = 0.0005`. -/
theorem preset_mix_deadzone :
    presetMix 0.0005 (fun _ => 0) (fun _ => 1) 0 = 0 ∧
    ¬ presetMix 0.0005 (fun _ => 0) (fun _ => 1) 0
        = (0 : ℚ) * (1 - 0.0005) + 1 * 0.0005 := by
  norm_num [presetMix]

/-- C4 (amended): at `reverb_mix = 0` the output equals the pure dry graph;
at `reverb_mix = 1` it equals the interpolation formula, hence the pure
reverb-processed graph; the exact linear interpolation
`dry * (1 - mix) + wet * mix` holds for every `reverb_mix > 0.001`, while for
`reverb_mix ≤ 0.001` (in particular the intermediate values in `(0, 0.001]`)
the builder omits the reverb path and the output equals the pure dry graph. -/
theorem preset_mix_crossfade :
    (∀ (dry wet : ℕ → ℚ) (n : ℕ), presetMix 0 dry wet n = dry n) ∧
    (∀ (dry wet : ℕ → ℚ) (n : ℕ), presetMix 1 dry wet n = wet n) ∧
    (∀ (mix : ℚ) (dry wet : ℕ → ℚ) (n : ℕ), 0.001 < mix →
      presetMix mix dry wet n = dry n * (1 - mix) + wet n * mix) ∧
    (∀ (mix : ℚ) (dry wet : ℕ → ℚ) (n : ℕ), mix ≤ 0.001 →
      presetMix mix dry wet n = dry n) := by
  refine ⟨?_, ?_, ?_, ?_⟩
  · intro dry wet n
    norm_num [presetMix]
  · intro dry wet n
    norm_num [presetMix]
  · intro mix dry wet n hmix
    rw [presetMix, if_pos hmix]
  · intro mix dry wet n hmix
    rw [presetMix, if_neg (not_lt.mpr hmix)]

/-- Witness for the amended C4 theorem at a concrete input. -/
theorem preset_mix_crossfade_witness :
    presetMix (1/2) (fun _ => 2) (fun _ => 4) 0
      = (fun _ : ℕ => (2:ℚ)) 0 * (1 - 1/2) + (fun _ : ℕ => (4:ℚ)) 0 * (1/2) :=
  preset_mix_crossfade.2.2.1 (1/2) (fun _ => 2) (fun _ => 4) 0 (by norm_num)

/-- C5: the low-pass and band-pass branches of `build_synth_graph` wire
`var(&cutoff_s)` into the filter, so the rendered cutoff is exactly the
cutoff handle's stored value (the handle is live); but the high-pass branch
builds `highpole_hz(hp.cutoff_hz)` with the construction-time constant and
never wires the returned handle into the graph, so writing through the
handle (here `set(5000)` on a handle built from cutoff 1000) leaves the
rendered cutoff at the constant 1000 — the claim fails for high-pass. -/
theorem synth_filter_cutoff_liveness :
    (∀ c r x : ℚ, (buildFilterStage (.lowPass c r)).usedCutoff x = x) ∧
    (∀ c b x : ℚ, (buildFilterStage (.bandPass c b)).usedCutoff x = x) ∧
    (∀ c x : ℚ, (buildFilterStage (.highPass c)).usedCutoff x = c) ∧
    (buildFilterStage (.highPass 1000)).usedCutoff
        (((buildFilterStage (.highPass 1000)).cutoff.set 5000).get) = 1000 :=
  ⟨fun _ _ _ => rfl, fun _ _ _ => rfl, fun _ _ => rfl, rfl⟩

/-- C8: no build system inserts a `OneShotLifetime` (contradicting the
component doc in `src/components/lifetime.rs`, which says the build systems
for one-shot presets insert it); the tick dynamics of
`oneshot_lifetime_system` are as claimed — the despawn is issued at the first
tick at which the accumulated frame deltas reach the duration, never
before. -/
theorem oneshot_lifetime_analysis :
    InsertedComponent.oneShotLifetime ∉ swordSlashBuildInserted ∧
    InsertedComponent.oneShotLifetime ∉ bluntImpactBuildInserted ∧
    ∀ (dur : ℚ) (dts : List ℚ) (i : ℕ),
      runOneShot (OneShotLifetime.new dur) dts = some i →
        dur ≤ (dts.take (i + 1)).sum ∧ ∀ j < i, (dts.take (j + 1)).sum < dur := by
  refine ⟨by decide, by decide, ?_⟩
  intro dur dts i h
  have hs := runOneShot_spec dts (OneShotLifetime.new dur) i h
  simpa [OneShotLifetime.new] using hs

/-- Witness for the C8 theorem at a concrete input (duration 2, two ticks of
delta 1: despawn at tick index 1, not at tick 0). -/
theorem oneshot_lifetime_analysis_witness :
    (2:ℚ) ≤ (([1, 1] : List ℚ).take (1 + 1)).sum ∧
    ∀ j < 1, ((([1, 1] : List ℚ).take (j + 1)).sum < 2) :=
  oneshot_lifetime_analysis.2.2 2 [1, 1] 1 (by norm_num [runOneShot, OneShotLifetime.new])

/-- C3 counterexample: at sample index 52920 the local time is exactly
`52920 / 44100 = 1.2`, the voice-1 envelope guard `t > 1.2` is false, and the
envelope evaluates to `exp(-7.2) * 0.016 > 0`; instantiating the layer source
signals with the constant `1` (a value a sine voice can attain), the output
sample at index 52920 is non-zero — the claimed silence "from index 52920
onward" fails at its first index. -/
theorem sword_slash_boundary_sample_nonzero :
    swordSlashSample 0.8 (fun _ => 1) (fun _ => 1) (fun _ => 1) (fun _ => 1) 52920 ≠ 0 := by
  unfold swordSlashSample swordSlashMix
  have ht : ((52920 : ℕ) : ℝ) / 44100 = 1.2 := by norm_num
  rw [ht]
  unfold swordEnvV1 swordEnvV2 swordEnvV3 swordNoiseEnv
  rw [if_neg (by norm_num : ¬ ((1.2:ℝ) > 1.2)), if_pos (by norm_num : (1.2:ℝ) > 0.6),
    if_pos (by norm_num : (1.2:ℝ) > 0.3), if_pos (by norm_num : (1.2:ℝ) > 0.5)]
  have hmin : min ((1.2:ℝ) * 500) 1 = 1 := by norm_num
  rw [hmin]
  simp only [mul_zero, add_zero, one_mul]
  positivity

/-- C3 (amended): for the sword-slash scenario (intensity 0.8, pitch 1.0,
reverb 0.0, 44100 Hz stereo) every output sample from index 52921 onward
(local time strictly greater than 1.2 s) is exactly 0 on both channels, and
some sample within the first 2205 samples is non-zero (exhibited for the
constant-1 instantiation of the layer sources); more generally, strictly
beyond each one-shot preset's documented cutoff the summed layer mix is
exactly 0: sword slash beyond 1.2 s, lightning zap beyond 0.55 s, lightning
strike beyond 2.5 s, blunt impact beyond 0.2 s, explosion beyond
`3.0 / sqrt(pitch)` s, arcane attack beyond 0.6 s (for the presets with no
post-mix filter stage this layer mix is the dry output itself). -/
theorem sword_slash_silence_strict :
    (∀ (int : ℝ) (f1 f2 f3 f4 : ℝ → ℝ) (n : ℕ), 52921 ≤ n →
      swordSlashStereoSample int f1 f2 f3 f4 n = (0, 0)) ∧
    (∃ m : ℕ, m < 2205 ∧
      swordSlashSample 0.8 (fun _ => 1) (fun _ => 1) (fun _ => 1) (fun _ => 1) m ≠ 0) ∧
    (∀ (int : ℝ) (f1 f2 f3 f4 : ℝ → ℝ) (t : ℝ), 1.2 < t →
      swordSlashMix int f1 f2 f3 f4 t = 0) ∧
    (∀ (int : ℝ) (g1 g2 g3 : ℝ → ℝ) (t : ℝ), 0.55 < t →
      zapMix int g1 g2 g3 t = 0) ∧
    (∀ (int : ℝ) (g1 g2 g3 g4 : ℝ → ℝ) (t : ℝ), 2.5 < t →
      strikeMix int g1 g2 g3 g4 t = 0) ∧
    (∀ (int : ℝ) (g1 g2 g3 : ℝ → ℝ) (t : ℝ), 0.2 < t →
      bluntMix int g1 g2 g3 t = 0) ∧
    (∀ (int pitch : ℝ) (g1 g2 g3 g4 g5 g6 : ℝ → ℝ) (t : ℝ), 0 < pitch →
      3.0 / Real.sqrt pitch < t →
      expLayerMix int pitch g1 g2 g3 g4 g5 g6 t = 0) ∧
    (∀ (int : ℝ) (g1 g2 g3 g4 g5 : ℝ → ℝ) (t : ℝ), 0.6 < t →
      arcLayerMix int g1 g2 g3 g4 g5 t = 0) := by
  refine ⟨?_, ?_, ?_, ?_, ?_, ?_, ?_, ?_⟩
  · intro int f1 f2 f3 f4 n hn
    have hc : (52921 : ℝ) ≤ (n : ℝ) := by exact_mod_cast hn
    have ht : (1.2:ℝ) < (n : ℝ) / 44100 := by
      rw [lt_div_iff₀ (by norm_num : (0:ℝ) < 44100)]
      linarith
    have hs := swordSlashMix_silent int f1 f2 f3 f4 ht
    unfold swordSlashStereoSample swordSlashSample
    rw [hs]
  · refine ⟨100, by norm_num, ?_⟩
    unfold swordSlashSample swordSlashMix
    have ht : ((100 : ℕ) : ℝ) / 44100 = 1 / 441 := by norm_num
    rw [ht]
    unfold swordEnvV1 swordEnvV2 swordEnvV3 swordNoiseEnv
    rw [if_neg (by norm_num : ¬ ((1:ℝ) / 441 > 1.2)),
      if_neg (by norm_num : ¬ ((1:ℝ) / 441 > 0.6)),
      if_neg (by norm_num : ¬ ((1:ℝ) / 441 > 0.3)),
      if_neg (by norm_num : ¬ ((1:ℝ) / 441 > 0.5))]
    have hm1 : min ((1:ℝ) / 441 * 500) 1 = 1 := by
      rw [min_eq_right]
      norm_num
    have hm2 : min ((1:ℝ) / 441 * 1000) 1 = 1 := by
      rw [min_eq_right]
      norm_num
    rw [hm1, hm2]
    simp only [one_mul]
    positivity
  · intro int f1 f2 f3 f4 t ht
    exact swordSlashMix_silent int f1 f2 f3 f4 ht
  · intro int g1 g2 g3 t ht
    exact zapMix_silent int g1 g2 g3 ht
  · intro int g1 g2 g3 g4 t ht
    exact strikeMix_silent int g1 g2 g3 g4 ht
  · intro int g1 g2 g3 t ht
    exact bluntMix_silent int g1 g2 g3 ht
  · intro int pitch g1 g2 g3 g4 g5 g6 t hp ht
    exact expLayerMix_silent int g1 g2 g3 g4 g5 g6 hp ht
  · intro int g1 g2 g3 g4 g5 t ht
    exact arcLayerMix_silent int g1 g2 g3 g4 g5 ht

/-- Witness for the amended C3 theorem at a concrete input. -/
theorem sword_slash_silence_strict_witness :
    swordSlashStereoSample 0.5 (fun _ => 1) (fun _ => 1) (fun _ => 1) (fun _ => 1) 60000
      = (0, 0) :=
  sword_slash_silence_strict.1 0.5 (fun _ => 1) (fun _ => 1) (fun _ => 1) (fun _ => 1)
    60000 (by norm_num)

/-- `process` renders exactly the requested number of frames. -/
lemma renderBlock_fst_length {S : Type} (step : S → (ℚ × ℚ) × S) :
    ∀ (n : ℕ) (s : S), ((renderBlock step n s).1).length = n
  | 0, _ => rfl
  | n + 1, s => by
      simp [renderBlock, renderBlock_fst_length step n]

/-- Interleaving `frames` for `ch ≥ 1` channels yields `ch * frames.length`
slots. -/
lemma interleave_length (ch : ℕ) (hch : 1 ≤ ch) :
    ∀ frames : List (ℚ × ℚ), (interleave ch frames).length = ch * frames.length
  | [] => by simp [interleave]
  | f :: fs => by
      have ih := interleave_length ch hch fs
      have hchunk :
          (f.1 :: ((if 2 ≤ ch then [f.2] else []) ++ List.replicate (ch - 2) (0:ℚ))).length
            = ch := by
        by_cases h2 : 2 ≤ ch <;> simp [h2] <;> omega
      simp only [interleave, List.length_append, hchunk, ih, List.length_cons]
      ring

/-- The decoder invariant established at construction and preserved by
`next`: at least one channel, and the cursor bound `total` matches the actual
interleaved buffer length. -/
def DecoderInv {S : Type} (d : Decoder S) : Prop :=
  1 ≤ d.channels ∧ d.total = MAX_BUFFER_SIZE * d.channels ∧
    d.buffer.length = MAX_BUFFER_SIZE * d.channels

/-- `next` always produces a sample and preserves the invariant. -/
lemma next_some {S : Type} (d : Decoder S) (h : DecoderInv d) :
    (d.next).1.isSome = true ∧ DecoderInv (d.next).2 := by
  obtain ⟨h1, h2, h3⟩ := h
  have hfill : d.fillBlock.buffer.length = MAX_BUFFER_SIZE * d.channels := by
    unfold Decoder.fillBlock
    simp only [interleave_length d.channels h1, renderBlock_fst_length]
    exact Nat.mul_comm _ _
  unfold Decoder.next Decoder.refill
  by_cases hp : d.total ≤ d.pos
  · rw [if_pos hp]
    have hlt : d.fillBlock.pos < d.fillBlock.buffer.length := by
      rw [hfill]
      show 0 < MAX_BUFFER_SIZE * d.channels
      exact Nat.mul_pos (by norm_num [MAX_BUFFER_SIZE]) h1
    rw [List.get?_eq_get hlt]
    exact ⟨rfl, h1, rfl, hfill⟩
  · rw [if_neg hp]
    have hlt : d.pos < d.buffer.length := by
      rw [h3, ← h2]
      omega
    rw [List.get?_eq_get hlt]
    exact ⟨rfl, h1, h2, h3⟩

/-- Every sample pulled under the invariant is `some`. -/
lemma run_all_some {S : Type} : ∀ (n : ℕ) (d : Decoder S), DecoderInv d →
    ((Decoder.run d n).1.all Option.isSome) = true ∧ DecoderInv (Decoder.run d n).2
  | 0, _, h => ⟨rfl, h⟩
  | n + 1, d, h => by
      have hn := next_some d h
      have ih := run_all_some n (d.next).2 hn.2
      simp only [Decoder.run, List.all_cons]
      exact ⟨by rw [hn.1, ih.1]; rfl, ih.2⟩

/-- C10: every call to the decoder's `next()` returns `some` sample — the
refill on exhaustion resets `pos` to 0 and `total` to the buffer length, so
the buffer index is always in bounds and the stream is infinite (termination
can only come from the control context dropping the playback). -/
theorem decoder_stream_infinite {S : Type} (a : ProceduralAudio S)
    (hch : 1 ≤ a.channels) (n : ℕ) :
    ((Decoder.run a.decoder n).1.all Option.isSome) = true := by
  have hinv : DecoderInv a.decoder := by
    refine ⟨hch, rfl, ?_⟩
    simp [ProceduralAudio.decoder]
  exact (run_all_some n a.decoder hinv).1

/-- Witness for the C10 theorem at a concrete input (130 samples of the demo
asset cross a 128-slot block boundary). -/
theorem decoder_stream_infinite_witness :
    ((Decoder.run (ProceduralAudio.decoder demoAsset) 130).1.all Option.isSome) = true :=
  decoder_stream_infinite demoAsset (by decide) 130

/-- C9: two decoders obtained from the same asset start from identical clone
state (the canonical graph is never rendered, and fundsp clones all node
state by value) and the render path is a pure function of that state, so they
produce identical output sequences; the chaotic-stutter envelope of the
lightning zap is likewise a pure function of local time, reproducing
identically for identical inputs. -/
theorem decoder_clone_determinism {S : Type} (a : ProceduralAudio S)
    (d1 d2 : Decoder S) (h1 : d1 = a.decoder) (h2 : d2 = a.decoder) (n : ℕ) :
    (Decoder.run d1 n).1 = (Decoder.run d2 n).1 ∧
    ∀ (int t u : ℝ), t = u → zapEnv1 int t = zapEnv1 int u := by
  subst h1
  subst h2
  exact ⟨rfl, fun int t u h => by rw [h]⟩

/-- Witness for the C9 theorem at a concrete input. -/
theorem decoder_clone_determinism_witness :
    (Decoder.run (ProceduralAudio.decoder demoAsset) 5).1
      = (Decoder.run (ProceduralAudio.decoder demoAsset) 5).1 :=
  (decoder_clone_determinism demoAsset (ProceduralAudio.decoder demoAsset)
    (ProceduralAudio.decoder demoAsset) rfl rfl 5).1

/-- Rust `fract` agrees with the mathematical mod-1 fractional part on
nonnegative inputs. -/
lemma rustFract_eq_fract {x : ℝ} (h : 0 ≤ x) : rustFract x = Int.fract x := by
  unfold rustFract rustTrunc
  rw [if_pos h]
  rfl

/-- The beat period is positive. -/
lemma hbBeatPeriod_pos (bpm : ℝ) : 0 < hbBeatPeriod bpm := by
  unfold hbBeatPeriod
  have h : (0:ℝ) < max bpm 30 := lt_of_lt_of_le (by norm_num) (le_max_right bpm 30)
  positivity

/-- The beat period is at most 2 seconds (the `max(30)` guard). -/
lemma hbBeatPeriod_le_two (bpm : ℝ) : hbBeatPeriod bpm ≤ 2 := by
  unfold hbBeatPeriod
  rw [div_le_iff₀ (lt_of_lt_of_le (by norm_num : (0:ℝ) < 30) (le_max_right bpm 30))]
  have h := le_max_right bpm 30
  linarith

/-- The jitter term is bounded by `±0.4 · arr` (the three sine weights sum
to one). -/
lemma abs_hbJitter_le (arr t : ℝ) (h0 : 0 ≤ arr) : |hbJitter arr t| ≤ 0.4 * arr := by
  unfold hbJitter
  have hb1 := Real.neg_one_le_sin (2 * Real.pi * 0.37 * t)
  have hb2 := Real.sin_le_one (2 * Real.pi * 0.37 * t)
  have hb3 := Real.neg_one_le_sin (2 * Real.pi * 0.83 * t)
  have hb4 := Real.sin_le_one (2 * Real.pi * 0.83 * t)
  have hb5 := Real.neg_one_le_sin (2 * Real.pi * 1.71 * t)
  have hb6 := Real.sin_le_one (2 * Real.pi * 1.71 * t)
  rw [abs_le]
  constructor <;> nlinarith [mul_nonneg h0 (by linarith : (0:ℝ) ≤ Real.sin (2 * Real.pi * 0.37 * t) + 1),
    mul_nonneg h0 (by linarith : (0:ℝ) ≤ 1 - Real.sin (2 * Real.pi * 0.37 * t)),
    mul_nonneg h0 (by linarith : (0:ℝ) ≤ Real.sin (2 * Real.pi * 0.83 * t) + 1),
    mul_nonneg h0 (by linarith : (0:ℝ) ≤ 1 - Real.sin (2 * Real.pi * 0.83 * t)),
    mul_nonneg h0 (by linarith : (0:ℝ) ≤ Real.sin (2 * Real.pi * 1.71 * t) + 1),
    mul_nonneg h0 (by linarith : (0:ℝ) ≤ 1 - Real.sin (2 * Real.pi * 1.71 * t))]

/-- Positivity of `sin(2π·c·t)` when `2·c·t ≤ 1` (the argument stays inside
`[0, π]`); the bound is supplied as `t ≤ b` with `2·c·b ≤ 1`. -/
lemma sin_coeff_nonneg {c t b : ℝ} (hc : 0 < c) (ht : 0 ≤ t) (htb : t ≤ b)
    (hcb : 2 * c * b ≤ 1) : 0 ≤ Real.sin (2 * Real.pi * c * t) := by
  have hπ : (0:ℝ) ≤ Real.pi := Real.pi_pos.le
  apply Real.sin_nonneg_of_nonneg_of_le_pi
  · positivity
  · have h1 : 2 * c * t ≤ 1 := by
      have h2 := mul_le_mul_of_nonneg_left htb (by positivity : (0:ℝ) ≤ 2 * c)
      linarith
    nlinarith [mul_nonneg hπ (by linarith : (0:ℝ) ≤ 1 - 2 * c * t)]

/-- Positivity of the third jitter sine on `[2/3.42, 0.8]`: the argument sits
in `[2π, 3π]`, where the shifted sine is nonnegative. -/
lemma sin_third_nonneg_caseC {t : ℝ} (hlo : 2 / 3.42 ≤ t) (hhi : t ≤ 0.8) :
    0 ≤ Real.sin (2 * Real.pi * 1.71 * t) := by
  have hπ : (0:ℝ) ≤ Real.pi := Real.pi_pos.le
  rw [← Real.sin_sub_two_pi]
  apply Real.sin_nonneg_of_nonneg_of_le_pi
  · have h1 : (1:ℝ) ≤ 1.71 * t := by linarith
    nlinarith [mul_nonneg hπ (by linarith : (0:ℝ) ≤ 1.71 * t - 1)]
  · have h2 : 2 * 1.71 * t ≤ 3 := by linarith
    nlinarith [mul_nonneg hπ (by linarith : (0:ℝ) ≤ 3 - 2 * 1.71 * t)]

/-- For local times below 0.8 s the jitter never outweighs `t / 2` (piecewise
sign analysis of the three sines); beyond 0.8 s the global `±0.4` bound
suffices. -/
lemma hbJitter_lower (arr t : ℝ) (h0 : 0 ≤ arr) (h1 : arr ≤ 1) (ht : 0 ≤ t) :
    -(t / 2) ≤ hbJitter arr t ∨ 0.8 ≤ t := by
  by_cases h08 : 0.8 ≤ t
  · exact Or.inr h08
  push_neg at h08
  left
  unfold hbJitter
  rcases le_or_lt t (1 / 3.42) with hA | hA
  · have hs1 : 0 ≤ Real.sin (2 * Real.pi * 0.37 * t) :=
      sin_coeff_nonneg (by norm_num) ht hA (by norm_num)
    have hs2 : 0 ≤ Real.sin (2 * Real.pi * 0.83 * t) :=
      sin_coeff_nonneg (by norm_num) ht hA (by norm_num)
    have hs3 : 0 ≤ Real.sin (2 * Real.pi * 1.71 * t) :=
      sin_coeff_nonneg (by norm_num) ht hA (by norm_num)
    nlinarith [mul_nonneg h0 hs1, mul_nonneg h0 hs2, mul_nonneg h0 hs3]
  rcases le_or_lt t (2 / 3.42) with hB | hB
  · have hs1 : 0 ≤ Real.sin (2 * Real.pi * 0.37 * t) :=
      sin_coeff_nonneg (by norm_num) ht hB (by norm_num)
    have hs2 : 0 ≤ Real.sin (2 * Real.pi * 0.83 * t) :=
      sin_coeff_nonneg (by norm_num) ht hB (by norm_num)
    have hs3 : -1 ≤ Real.sin (2 * Real.pi * 1.71 * t) := Real.neg_one_le_sin _
    nlinarith [mul_nonneg h0 hs1, mul_nonneg h0 hs2,
      mul_nonneg h0 (by linarith : (0:ℝ) ≤ Real.sin (2 * Real.pi * 1.71 * t) + 1)]
  · have hs1 : 0 ≤ Real.sin (2 * Real.pi * 0.37 * t) :=
      sin_coeff_nonneg (by norm_num) ht (le_of_lt h08) (by norm_num)
    have hs3 : 0 ≤ Real.sin (2 * Real.pi * 1.71 * t) :=
      sin_third_nonneg_caseC (le_of_lt hB) (le_of_lt h08)
    have hs2 : -1 ≤ Real.sin (2 * Real.pi * 0.83 * t) := Real.neg_one_le_sin _
    nlinarith [mul_nonneg h0 hs1, mul_nonneg h0 hs3,
      mul_nonneg h0 (by linarith : (0:ℝ) ≤ Real.sin (2 * Real.pi * 0.83 * t) + 1)]

/-- The argument handed to `fract` is never negative for nonnegative local
time and an arrhythmia value in `[0, 1]`. -/
lemma hbPhase_input_nonneg (bpm arr t : ℝ) (ht : 0 ≤ t) (h0 : 0 ≤ arr)
    (h1 : arr ≤ 1) :
    0 ≤ t / hbBeatPeriod bpm + hbJitter arr t := by
  have hTpos := hbBeatPeriod_pos bpm
  have hTle := hbBeatPeriod_le_two bpm
  have hdiv : t / 2 ≤ t / hbBeatPeriod bpm := by
    gcongr
  rcases hbJitter_lower arr t h0 h1 ht with hj | h08
  · linarith
  · have habs := (abs_le.mp (abs_hbJitter_le arr t h0)).1
    have h04 : (0.4:ℝ) ≤ t / hbBeatPeriod bpm := by
      have hq : (0.8:ℝ) / 2 ≤ t / hbBeatPeriod bpm :=
        div_le_div₀ ht h08 hTpos hTle
      linarith
    linarith

/-- C7: for every local time `t ≥ 0` and arrhythmia value in `[0, 1]`, the
beat phase is `fract` of the sum of `t / beat_period` and the jitter term
(the weighted three-sine sum scaled by `arr * 0.4`); the jitter is bounded by
`±0.4 · arr` (at most ±40 % of a cycle at `arr = 1`), and since the `fract`
argument is provably nonnegative the Rust `fract` coincides with reduction
mod 1, so the phase lands in `[0, 1)`. -/
theorem heartbeat_phase_wraps (bpm arr t : ℝ) (ht : 0 ≤ t) (h0 : 0 ≤ arr)
    (h1 : arr ≤ 1) :
    |hbJitter arr t| ≤ 0.4 * arr ∧
    hbPhase bpm arr t = Int.fract (t / hbBeatPeriod bpm + hbJitter arr t) ∧
    0 ≤ hbPhase bpm arr t ∧ hbPhase bpm arr t < 1 := by
  have hin := hbPhase_input_nonneg bpm arr t ht h0 h1
  have heq : hbPhase bpm arr t = Int.fract (t / hbBeatPeriod bpm + hbJitter arr t) := by
    unfold hbPhase
    exact rustFract_eq_fract hin
  refine ⟨abs_hbJitter_le arr t h0, heq, ?_, ?_⟩
  · rw [heq]
    exact Int.fract_nonneg _
  · rw [heq]
    exact Int.fract_lt_one _

/-- Witness for the C7 theorem at a concrete input. -/
theorem heartbeat_phase_wraps_witness :
    0 ≤ hbPhase 60 1 1 ∧ hbPhase 60 1 1 < 1 :=
  (heartbeat_phase_wraps 60 1 1 (by norm_num) (by norm_num) (by norm_num)).2.2

/-- C6: with `arrhythmic_strength = 0` and `heart_rate = bpm ∈ [30, 220]`,
the beat period is exactly `60 / bpm`; within cycle `k` (times in
`[k·T, (k+1)·T)`) the rendered `lfo` value is the S1 burst at local time
`t - k·T` (so successive S1 onsets are the cycle starts `k·T`, exactly
`60 / bpm` apart) plus the S2 burst starting `0.33·T` into the cycle at 0.7
times amplitude; the signal repeats with period `60 / bpm`. -/
theorem heartbeat_s1_cadence (bpm intensity t : ℝ) (k : ℕ)
    (hlo : 30 ≤ bpm) (hhi : bpm ≤ 220)
    (h1 : (k : ℝ) * (60 / bpm) ≤ t) (h2 : t < ((k : ℝ) + 1) * (60 / bpm)) :
    hbBeatPeriod bpm = 60 / bpm ∧
    ((k : ℝ) + 1) * (60 / bpm) - (k : ℝ) * (60 / bpm) = 60 / bpm ∧
    hbSample bpm 0 intensity t =
      (heart_sound (t - (k : ℝ) * (60 / bpm)) 45 90 25
        + heart_sound (t - (k : ℝ) * (60 / bpm) - 0.33 * (60 / bpm)) 65 130 35 * 0.7)
        * intensity ∧
    hbSample bpm 0 intensity (t + 60 / bpm) = hbSample bpm 0 intensity t := by
  have hbpm : (0:ℝ) < bpm := by linarith
  have hT : hbBeatPeriod bpm = 60 / bpm := by
    unfold hbBeatPeriod
    rw [max_eq_left hlo]
  have hTpos : (0:ℝ) < 60 / bpm := by positivity
  have hj : ∀ u : ℝ, hbJitter 0 u = 0 := by
    intro u
    unfold hbJitter
    ring
  have ht0 : 0 ≤ t := le_trans (by positivity : (0:ℝ) ≤ (k:ℝ) * (60 / bpm)) h1
  have hphase : hbPhase bpm 0 t = t / (60 / bpm) - (k : ℝ) := by
    unfold hbPhase
    rw [hT, hj, add_zero, rustFract_eq_fract (div_nonneg ht0 hTpos.le)]
    have hfl : ⌊t / (60 / bpm)⌋ = (k : ℤ) := by
      rw [Int.floor_eq_iff]
      constructor
      · rw [le_div_iff₀ hTpos]
        push_cast
        linarith
      · rw [div_lt_iff₀ hTpos]
        push_cast
        linarith
    unfold Int.fract
    rw [hfl]
    push_cast
    ring
  have harg1 : hbPhase bpm 0 t * hbBeatPeriod bpm = t - (k : ℝ) * (60 / bpm) := by
    rw [hphase, hT, sub_mul, div_mul_cancel₀ _ (ne_of_gt hTpos)]
  have harg2 : (hbPhase bpm 0 t - 0.33) * hbBeatPeriod bpm
      = t - (k : ℝ) * (60 / bpm) - 0.33 * (60 / bpm) := by
    rw [hphase, hT, sub_mul, sub_mul, div_mul_cancel₀ _ (ne_of_gt hTpos)]
  refine ⟨hT, by ring, ?_, ?_⟩
  · unfold hbSample
    rw [harg1, harg2]
  · have hphase2 : hbPhase bpm 0 (t + 60 / bpm) = hbPhase bpm 0 t := by
      unfold hbPhase
      rw [hT, hj, hj, add_zero, add_zero,
        rustFract_eq_fract (div_nonneg (by linarith) hTpos.le),
        rustFract_eq_fract (div_nonneg ht0 hTpos.le)]
      have hsplit : (t + 60 / bpm) / (60 / bpm) = t / (60 / bpm) + 1 := by
        field_simp
      rw [hsplit, Int.fract_add_one]
    unfold hbSample
    rw [hphase2]

/-- Witness for the C6 theorem at a concrete input. -/
theorem heartbeat_s1_cadence_witness :
    hbBeatPeriod 60 = 60 / 60 :=
  (heartbeat_s1_cadence 60 1 0.5 0 (by norm_num) (by norm_num) (by norm_num)
    (by norm_num)).1

end ProcAud
